import Mathlib

/-!
Shallow embedding of the rocBLAS `spr2` client test harness
(`clients/include/blas2/testing_spr2.hpp` and `clients/include/utility.hpp`).

The harness is straight-line host code: it allocates buffers, initialises
them, invokes the vendor GPU kernel and the CPU reference, transfers results
back and compares them, optionally timing repeated invocations.  We embed each
test function as a function from its `Arguments` to the list of observable
events it performs, in program order.  Buffer contents are tracked
symbolically: the vendor kernel and the CPU reference are opaque external
collaborators, so their outputs are uninterpreted terms over their inputs.

Machine arithmetic is explicit: `rocblas_int` is the 32-bit signed `int` of
the rocBLAS API (signed overflow is modelled as two's-complement wraparound,
the behaviour of mainstream compilers), and `size_t` is 64-bit unsigned, so
`size_t` products are reduced modulo 2^64.
-/

namespace RocblasSpr2Test

/-- Two's-complement wraparound of a mathematical integer into the value range
of a 32-bit signed `int` (the `rocblas_int` of the API). -/
def wrap32 (x : Int) : Int :=
  (x + 2147483648) % 4294967296 - 2147483648

/-- Conversion of a (possibly negative) C `int` value to `size_t`
(64-bit unsigned), i.e. reduction modulo 2^64. -/
def toSizeT (x : Int) : Nat :=
  (x % 18446744073709551616).toNat

/-- Multiplication in `size_t` arithmetic (64-bit unsigned, modulo 2^64). -/
def sizeTMul (a b : Nat) : Nat :=
  a * b % 18446744073709551616

/-- The packed-matrix buffer size `size_t(N) * (N + 1) / 2` from
`testing_spr2.hpp` lines 33 and 86: `N + 1` is computed in `int` arithmetic,
the product and the division by 2 in `size_t` arithmetic. -/
def size_A (N : Int) : Nat :=
  sizeTMul (toSizeT N) (toSizeT (wrap32 (N + 1))) / 2

/-- The increment magnitude `incx >= 0 ? incx : -incx` (lines 31-32, 84-85):
the negation is `int` arithmetic, the result is stored into a `size_t`. -/
def abs_inc (inc : Int) : Nat :=
  if 0 ≤ inc then toSizeT inc else toSizeT (wrap32 (-inc))

/-- The vector buffer size `size_t(N) * abs_incx` (lines 34-35, 87-88). -/
def size_x (N inc : Int) : Nat :=
  sizeTMul (toSizeT N) (abs_inc inc)

/-- The fill-mode argument of the vendor API. -/
inductive Fill where
  | upper
  | lower
  | full
deriving DecidableEq

/-- Status codes of the vendor API that the harness checks for. -/
inductive Status where
  | success
  | invalid_handle
  | invalid_pointer
  | invalid_size
  | invalid_value
deriving DecidableEq

/-- The pointer mode set on the vendor handle. -/
inductive PtrMode where
  | host
  | device
deriving DecidableEq

/-- The buffers of the harness (host `h*`, device `d*`), by their source
names. -/
inductive Buf where
  | hA_1
  | hA_2
  | hA_gold
  | hx
  | hy
  | halpha
  | dA_1
  | dA_2
  | dx
  | dy
  | d_alpha
deriving DecidableEq

/-- Symbolic buffer contents.  `initA`, `initX`, `initY` are the random data
produced by the three `rocblas_init` calls; `alphaV` is the scalar
`h_alpha = arg.get_alpha<T>()`; `spr2Out`/`cblasOut` are the uninterpreted
outputs of the opaque vendor kernel and CPU reference on the given inputs. -/
inductive Data where
  | initA
  | initX
  | initY
  | alphaV
  | spr2Out (alpha a x y : Data)
  | cblasOut (alpha a x y : Data)
deriving DecidableEq

/-- Description of one invocation of `rocblas_spr2_fn` by which pointers are
null and which scalar arguments are passed, for the status-check calls. -/
structure Spr2Call where
  handleNull : Bool
  uplo : Fill
  N : Int
  alphaNull : Bool
  xNull : Bool
  incx : Int
  yNull : Bool
  incy : Int
  aNull : Bool
deriving DecidableEq

/-- Observable events of a harness run, in program order. -/
inductive Event where
  | createHandle
  | destroyHandle
  | allocHost (b : Buf) (size : Nat)
  | allocDevice (b : Buf) (size : Nat)
  | initBuf (b : Buf) (d : Data)
  | hostCopy (dst src : Buf) (d : Data)
  | transferToDevice (dst src : Buf) (d : Data)
  | transferToHost (dst src : Buf) (d : Data)
  | expectStatus (call : Spr2Call) (expected : Status)
  | setPtrMode (m : PtrMode)
  | spr2 (mode : PtrMode) (checked : Bool) (alpha a x y : Data)
  | cblasSpr2 (alpha a x y : Data)
  | unitCheckEv (gold comp : Data)
  | normCheckEv (gold comp : Data)
  | cpuTimerRead
  | getStream
  | timerRead
  | logArgs (gpuTimeAssigned cpuTimeAssigned err1Assigned err2Assigned : Bool)
deriving DecidableEq

/-- The fields of the client `Arguments` record that `testing_spr2` and
`testing_spr2_bad_arg` read.  `Arguments` itself is defined outside this
excerpt; the sizes `N`, `incx`, `incy` are `rocblas_int` values and the
iteration counts `iters` / `cold_iters` are the nonnegative repetition counts
of the timing loops. -/
structure Arguments where
  N : Int
  incx : Int
  incy : Int
  uplo : Fill
  fortran : Bool
  unit_check : Bool
  norm_check : Bool
  timing : Bool
  iters : Nat
  cold_iters : Nat

/-- The early argument-check call (line 78): all four data pointers null,
sizes passed through. -/
def argCheckCall (arg : Arguments) : Spr2Call :=
  { handleNull := false, uplo := arg.uplo, N := arg.N, alphaNull := true,
    xNull := true, incx := arg.incx, yNull := true, incy := arg.incy,
    aNull := true }

/-- The output the vendor kernel writes over `dA_1` / `dA_2` in the
correctness branch: both start from `hA_1`'s data with `dx`, `dy`, alpha. -/
def gpuOut : Data :=
  Data.spr2Out Data.alphaV Data.initA Data.initX Data.initY

/-- The output `cblas_spr2` writes over `hA_gold`. -/
def cpuOut : Data :=
  Data.cblasOut Data.alphaV Data.initA Data.initX Data.initY

/-- Allocation section of `testing_spr2` (lines 91-116): six host buffers,
the store `halpha[0] = h_alpha` (line 104), then five device buffers. -/
def allocSection (arg : Arguments) : List Event :=
  [Event.allocHost Buf.hA_1 (size_A arg.N),
   Event.allocHost Buf.hA_2 (size_A arg.N),
   Event.allocHost Buf.hA_gold (size_A arg.N),
   Event.allocHost Buf.hx (size_x arg.N arg.incx),
   Event.allocHost Buf.hy (size_x arg.N arg.incy),
   Event.allocHost Buf.halpha 1,
   Event.initBuf Buf.halpha Data.alphaV,
   Event.allocDevice Buf.dA_1 (size_A arg.N),
   Event.allocDevice Buf.dA_2 (size_A arg.N),
   Event.allocDevice Buf.dx (size_x arg.N arg.incx),
   Event.allocDevice Buf.dy (size_x arg.N arg.incy),
   Event.allocDevice Buf.d_alpha 1]

/-- The three `rocblas_init` calls (lines 123-125). -/
def initSection : List Event :=
  [Event.initBuf Buf.hA_1 Data.initA,
   Event.initBuf Buf.hx Data.initX,
   Event.initBuf Buf.hy Data.initY]

/-- The host-side copies `hA_gold = hA_1; hA_2 = hA_1` (lines 129-130). -/
def hostCopySection : List Event :=
  [Event.hostCopy Buf.hA_gold Buf.hA_1 Data.initA,
   Event.hostCopy Buf.hA_2 Buf.hA_1 Data.initA]

/-- The host-to-device transfers (lines 133-137); note that `dA_2` is also
filled from `hA_1`. -/
def transferSection : List Event :=
  [Event.transferToDevice Buf.dA_1 Buf.hA_1 Data.initA,
   Event.transferToDevice Buf.dA_2 Buf.hA_1 Data.initA,
   Event.transferToDevice Buf.dx Buf.hx Data.initX,
   Event.transferToDevice Buf.dy Buf.hy Data.initY,
   Event.transferToDevice Buf.d_alpha Buf.halpha Data.alphaV]

/-- The correctness branch (lines 139-167): guarded by
`arg.unit_check || arg.norm_check`; host-pointer-mode kernel call on `dA_1`,
device-pointer-mode call on `dA_2`, the CPU reference timed by
`get_time_us_no_sync`, device-to-host transfers of both results, then the
unit and/or norm comparisons of each GPU result against `hA_gold`. -/
def checkSection (u n : Bool) : List Event :=
  if u || n then
    [Event.setPtrMode PtrMode.host,
     Event.spr2 PtrMode.host true Data.alphaV Data.initA Data.initX Data.initY,
     Event.setPtrMode PtrMode.device,
     Event.spr2 PtrMode.device true Data.alphaV Data.initA Data.initX Data.initY,
     Event.cpuTimerRead,
     Event.cblasSpr2 Data.alphaV Data.initA Data.initX Data.initY,
     Event.cpuTimerRead,
     Event.transferToHost Buf.hA_1 Buf.dA_1 gpuOut,
     Event.transferToHost Buf.hA_2 Buf.dA_2 gpuOut]
    ++ (if u then [Event.unitCheckEv cpuOut gpuOut,
                   Event.unitCheckEv cpuOut gpuOut] else [])
    ++ (if n then [Event.normCheckEv cpuOut gpuOut,
                   Event.normCheckEv cpuOut gpuOut] else [])
  else []

/-- Content of `dA_1` after the correctness branch: overwritten by the kernel
exactly when that branch ran. -/
def dA1AfterCheck (u n : Bool) : Data :=
  if u || n then gpuOut else Data.initA

/-- One timing loop (lines 175-178 and 184-187): `n` unchecked host-pointer
invocations of the vendor function, each rewriting `dA_1` in place, so each
iteration reads the previous iteration's output.  Returns the events and the
final content of `dA_1`. -/
def spr2Loop (a : Data) : Nat → List Event × Data
  | 0 => ([], a)
  | Nat.succ k =>
    (Event.spr2 PtrMode.host false Data.alphaV a Data.initX Data.initY ::
       (spr2Loop (Data.spr2Out Data.alphaV a Data.initX Data.initY) k).1,
     (spr2Loop (Data.spr2Out Data.alphaV a Data.initX Data.initY) k).2)

/-- The timing branch (lines 169-199): pointer mode host, `arg.cold_iters`
warm-up calls, stream fetch, a stream-synchronised timer read, `arg.iters` hot
calls, a second timer read, and the `log_args` call.  The four Booleans of the
log event record which of `gpu_time_used`, `cpu_time_used`,
`rocblas_error_1`, `rocblas_error_2` have been assigned when they are read. -/
def timingSection (arg : Arguments) (a : Data) : List Event :=
  if arg.timing then
    Event.setPtrMode PtrMode.host ::
    ((spr2Loop a arg.cold_iters).1
     ++ [Event.getStream, Event.timerRead]
     ++ (spr2Loop (spr2Loop a arg.cold_iters).2 arg.iters).1
     ++ [Event.timerRead,
         Event.logArgs true (arg.unit_check || arg.norm_check)
           arg.norm_check arg.norm_check])
  else []

/-- Embedding of `testing_spr2` (lines 62-200).  The handle is created by the
`rocblas_local_handle` constructor at line 72 and destroyed at scope exit.
If `N < 0 || !incx || !incy`, the harness asserts `invalid_size` on a call
with all data pointers null and returns before any buffer allocation
(lines 74-82); otherwise it allocates, initialises, transfers, and runs the
correctness and timing branches.  The template parameter `T` and the
`arg.fortran` selection between the two `rocblas_spr2` instantiations do not
change the observable sequence and are not represented. -/
def testing_spr2 (arg : Arguments) : List Event :=
  Event.createHandle ::
  (if arg.N < 0 ∨ arg.incx = 0 ∨ arg.incy = 0 then
    [Event.expectStatus (argCheckCall arg) Status.invalid_size,
     Event.destroyHandle]
  else
    allocSection arg ++ initSection ++ hostCopySection ++ transferSection
    ++ checkSection arg.unit_check arg.norm_check
    ++ timingSection arg (dA1AfterCheck arg.unit_check arg.norm_check)
    ++ [Event.destroyHandle])

/-- The baseline (all-valid) call of `testing_spr2_bad_arg`:
`uplo = rocblas_fill_upper`, `N = 100`, `incx = incy = 1`, no null
pointers. -/
def badArgBaseCall : Spr2Call :=
  { handleNull := false, uplo := Fill.upper, N := 100, alphaNull := false,
    xNull := false, incx := 1, yNull := false, incy := 1, aNull := false }

/-- Embedding of `testing_spr2_bad_arg` (lines 19-60): fixed sizes
`N = 100`, `incx = incy = 1`; three device allocations, then five status
assertions, each perturbing exactly one argument of the baseline call.  The
only use of `arg` in the source is the `arg.fortran` selection of the
`rocblas_spr2` instantiation, which does not change the observable
sequence. -/
def testing_spr2_bad_arg (arg : Arguments) : List Event :=
  Event.createHandle ::
  [Event.allocDevice Buf.dA_1 (size_A 100),
   Event.allocDevice Buf.dx (size_x 100 1),
   Event.allocDevice Buf.dy (size_x 100 1),
   Event.expectStatus { badArgBaseCall with uplo := Fill.full }
     Status.invalid_value,
   Event.expectStatus { badArgBaseCall with xNull := true }
     Status.invalid_pointer,
   Event.expectStatus { badArgBaseCall with yNull := true }
     Status.invalid_pointer,
   Event.expectStatus { badArgBaseCall with aNull := true }
     Status.invalid_pointer,
   Event.expectStatus { badArgBaseCall with handleNull := true }
     Status.invalid_handle,
   Event.destroyHandle]

/-- Resource actions on the vendor handle. -/
inductive HandleAction where
  | create
  | destroy
deriving DecidableEq

/-- The public operations available on a live `rocblas_local_handle`
(`utility.hpp` lines 36-59): the two conversion operators to
`rocblas_handle&` and `const rocblas_handle&`. -/
inductive HandleOp where
  | asRef
  | asConstRef
deriving DecidableEq

/-- Handle actions performed by a conversion operator: none. -/
def handleOpActions : HandleOp → List HandleAction := fun _ => []

/-- The handle value returned by a conversion operator: the stored handle,
unchanged. -/
def handleOpValue : HandleOp → Nat → Nat := fun _ h => h

/-- The handle actions over the lifetime of a `rocblas_local_handle`: the
constructor calls `rocblas_create_handle`, then any sequence of operations on
the wrapper, then the destructor calls `rocblas_destroy_handle`. -/
def rocblas_local_handle_lifetime (ops : List HandleOp) : List HandleAction :=
  HandleAction.create :: (ops.flatMap handleOpActions ++ [HandleAction.destroy])

/-- Predicate for an unchecked host-pointer-mode vendor invocation, the form
of the calls in the two timing loops. -/
def isTimedSpr2 : Event → Bool
  | Event.spr2 PtrMode.host false _ _ _ _ => true
  | _ => false

/-- Classification of a C `double` as the `print_value` overload of
`utility.hpp` (lines 96-113) branches on it: NaN, an infinity with its sign,
or finite with the character sequence `snprintf` produces for `%.17g`
(always at most 25 characters, so never truncated by the 29-character
limit). -/
inductive DoubleVal where
  | nan
  | posInf
  | negInf
  | finite (s : List Char)

/-- Whether the buffer contains one of the characters `.`, `e`, `E` — the
condition under which `strcspn(s, ".eE")` stops before the terminator. -/
def hasDotOrExp (s : List Char) : Bool :=
  s.any fun c => c == '.' || c == 'e' || c == 'E'

/-- Embedding of `rocblas_print_helper::print_value` for `double`
(`utility.hpp` lines 96-113): NaN prints `.nan`; an infinity prints `.inf`
with a leading `-` exactly when negative; a finite value prints its `%.17g`
buffer, with `.0` appended when `strcspn` finds no `.`, `e` or `E` before the
terminator. -/
def print_value : DoubleVal → List Char
  | DoubleVal.nan => ['.', 'n', 'a', 'n']
  | DoubleVal.posInf => ['.', 'i', 'n', 'f']
  | DoubleVal.negInf => ['-', '.', 'i', 'n', 'f']
  | DoubleVal.finite s => if hasDotOrExp s then s else s ++ ['.', '0']

/-- Concrete arguments with only the unit check enabled, for witnesses. -/
def argUnit : Arguments :=
  { N := 2, incx := 1, incy := -1, uplo := Fill.upper, fortran := false,
    unit_check := true, norm_check := false, timing := false,
    iters := 0, cold_iters := 0 }

/-- Concrete arguments with only the norm check enabled, for witnesses. -/
def argNorm : Arguments :=
  { N := 1, incx := 2, incy := 3, uplo := Fill.lower, fortran := false,
    unit_check := false, norm_check := true, timing := false,
    iters := 0, cold_iters := 0 }

/-- Concrete arguments with a negative `N`, for witnesses. -/
def argNegN : Arguments :=
  { N := -1, incx := 1, incy := 1, uplo := Fill.upper, fortran := false,
    unit_check := true, norm_check := false, timing := false,
    iters := 0, cold_iters := 0 }

/-- Concrete arguments with timing only (no correctness checks), one cold and
two hot iterations. -/
def argTiming : Arguments :=
  { N := 1, incx := 1, incy := 1, uplo := Fill.upper, fortran := false,
    unit_check := false, norm_check := false, timing := true,
    iters := 2, cold_iters := 1 }

/-- Concrete arguments with timing only, no cold calls and one hot call:
the configuration in which `log_args` reads unassigned variables. -/
def argTimingOnly : Arguments :=
  { N := 1, incx := 1, incy := 1, uplo := Fill.upper, fortran := false,
    unit_check := false, norm_check := false, timing := true,
    iters := 1, cold_iters := 0 }

/-- Concrete arguments with `N` equal to `INT_MAX`, on which the `size_A`
computation overflows `int` arithmetic. -/
def argBigN : Arguments :=
  { N := 2147483647, incx := 1, incy := 1, uplo := Fill.upper,
    fortran := false, unit_check := false, norm_check := false,
    timing := false, iters := 0, cold_iters := 0 }

/-- Concrete arguments with `incx` equal to `INT_MIN`, on which the
`abs_incx` computation overflows `int` arithmetic. -/
def argIntMinInc : Arguments :=
  { N := 1, incx := -2147483648, incy := 1, uplo := Fill.upper,
    fortran := false, unit_check := false, norm_check := false,
    timing := false, iters := 0, cold_iters := 0 }

/-- Concrete small arguments for size-formula witnesses. -/
def argSmall : Arguments :=
  { N := 3, incx := -2, incy := 1, uplo := Fill.upper, fortran := false,
    unit_check := true, norm_check := false, timing := false,
    iters := 0, cold_iters := 0 }

/-- When the size arguments are valid, the early argument check is not taken
and the run is the full allocation/initialisation/check/timing sequence. -/
theorem testing_spr2_valid_eq (arg : Arguments) (hN : 0 ≤ arg.N)
    (hx : arg.incx ≠ 0) (hy : arg.incy ≠ 0) :
    testing_spr2 arg =
      Event.createHandle ::
        (allocSection arg ++ initSection ++ hostCopySection ++ transferSection
          ++ checkSection arg.unit_check arg.norm_check
          ++ timingSection arg (dA1AfterCheck arg.unit_check arg.norm_check)
          ++ [Event.destroyHandle]) := by
  unfold testing_spr2
  rw [if_neg]
  push_neg
  exact ⟨by omega, hx, hy⟩

/-- Claim C3: when `N < 0`, `incx == 0` or `incy == 0`, `testing_spr2`
asserts that the vendor function, called with all four data pointers null,
returns `rocblas_status_invalid_size`, and returns immediately: the run
performs no host or device buffer allocation. -/
theorem testing_spr2_invalid_size_early_return (arg : Arguments)
    (h : arg.N < 0 ∨ arg.incx = 0 ∨ arg.incy = 0) :
    testing_spr2 arg =
      [Event.createHandle,
       Event.expectStatus
         { handleNull := false, uplo := arg.uplo, N := arg.N,
           alphaNull := true, xNull := true, incx := arg.incx,
           yNull := true, incy := arg.incy, aNull := true }
         Status.invalid_size,
       Event.destroyHandle]
    ∧ ∀ e ∈ testing_spr2 arg,
        (∀ b s, e ≠ Event.allocHost b s) ∧ (∀ b s, e ≠ Event.allocDevice b s) := by
  have heq : testing_spr2 arg =
      [Event.createHandle,
       Event.expectStatus
         { handleNull := false, uplo := arg.uplo, N := arg.N,
           alphaNull := true, xNull := true, incx := arg.incx,
           yNull := true, incy := arg.incy, aNull := true }
         Status.invalid_size,
       Event.destroyHandle] := by
    unfold testing_spr2 argCheckCall
    rw [if_pos h]
  refine ⟨heq, ?_⟩
  rw [heq]
  intro e he
  simp only [List.mem_cons, List.not_mem_nil, or_false] at he
  rcases he with rfl | rfl | rfl <;>
    refine ⟨fun b s hc => ?_, fun b s hc => ?_⟩ <;> cases hc

/-- Witness for C3 at `N = -1`. -/
theorem testing_spr2_invalid_size_early_return_witness :
    (argNegN.N < 0 ∨ argNegN.incx = 0 ∨ argNegN.incy = 0)
    ∧ (testing_spr2 argNegN =
        [Event.createHandle,
         Event.expectStatus
           { handleNull := false, uplo := argNegN.uplo, N := argNegN.N,
             alphaNull := true, xNull := true, incx := argNegN.incx,
             yNull := true, incy := argNegN.incy, aNull := true }
           Status.invalid_size,
         Event.destroyHandle]
       ∧ ∀ e ∈ testing_spr2 argNegN,
           (∀ b s, e ≠ Event.allocHost b s)
           ∧ (∀ b s, e ≠ Event.allocDevice b s)) :=
  ⟨Or.inl (by decide),
   testing_spr2_invalid_size_early_return argNegN (Or.inl (by decide))⟩

/-- Claim C2: `testing_spr2_bad_arg` asserts `invalid_value` for fill mode
`rocblas_fill_full`, `invalid_pointer` for each of the `x`, `y` and `A`
pointers null one at a time with all other arguments valid, and
`invalid_handle` for a null handle. -/
theorem testing_spr2_bad_arg_statuses (arg : Arguments) :
    Event.expectStatus { badArgBaseCall with uplo := Fill.full }
      Status.invalid_value ∈ testing_spr2_bad_arg arg
  ∧ Event.expectStatus { badArgBaseCall with xNull := true }
      Status.invalid_pointer ∈ testing_spr2_bad_arg arg
  ∧ Event.expectStatus { badArgBaseCall with yNull := true }
      Status.invalid_pointer ∈ testing_spr2_bad_arg arg
  ∧ Event.expectStatus { badArgBaseCall with aNull := true }
      Status.invalid_pointer ∈ testing_spr2_bad_arg arg
  ∧ Event.expectStatus { badArgBaseCall with handleNull := true }
      Status.invalid_handle ∈ testing_spr2_bad_arg arg
  ∧ badArgBaseCall.handleNull = false ∧ badArgBaseCall.alphaNull = false
  ∧ badArgBaseCall.xNull = false ∧ badArgBaseCall.yNull = false
  ∧ badArgBaseCall.aNull = false ∧ badArgBaseCall.uplo = Fill.upper := by
  unfold testing_spr2_bad_arg
  decide

/-- Claim C5: over the lifetime of a `rocblas_local_handle`, the vendor
handle is created exactly once, at construction, and destroyed exactly once,
at destruction; no operation of the wrapper performs a handle action or
changes the stored handle. -/
theorem rocblas_local_handle_raii (ops : List HandleOp) :
    (rocblas_local_handle_lifetime ops).count HandleAction.create = 1
  ∧ (rocblas_local_handle_lifetime ops).count HandleAction.destroy = 1
  ∧ (rocblas_local_handle_lifetime ops).head? = some HandleAction.create
  ∧ (rocblas_local_handle_lifetime ops).getLast? = some HandleAction.destroy
  ∧ (∀ op, handleOpActions op = [])
  ∧ (∀ op h, handleOpValue op h = h) := by
  have hflat : ops.flatMap handleOpActions = [] := by
    induction ops with
    | nil => rfl
    | cons o os ih => simp [handleOpActions, ih]
  unfold rocblas_local_handle_lifetime
  rw [hflat]
  exact ⟨by decide, by decide, by decide, by decide,
         fun op => rfl, fun op h => rfl⟩

/-- Claim C8 (code bug): with `arg.timing` set and neither `arg.unit_check`
nor `arg.norm_check` set, `testing_spr2` reaches `log_args` with
`cpu_time_used`, `rocblas_error_1` and `rocblas_error_2` never assigned in
the call: three of the four values it reads are uninitialised (only
`gpu_time_used` has been assigned). -/
theorem testing_spr2_log_args_uninitialized :
    Event.logArgs true false false false ∈ testing_spr2 argTimingOnly := by
  decide

/-- Claim C9: `print_value` on a `double` prints `.nan` for NaN, `.inf` and
`-.inf` for the infinities, and for a finite value prints its `%.17g`
representation with `.0` appended exactly when that representation contains
no decimal point and no exponent character; hence every finite value prints
with a decimal point or an exponent. -/
theorem print_value_spec :
    print_value DoubleVal.nan = ['.', 'n', 'a', 'n']
  ∧ print_value DoubleVal.posInf = ['.', 'i', 'n', 'f']
  ∧ print_value DoubleVal.negInf = ['-', '.', 'i', 'n', 'f']
  ∧ (∀ s, print_value (DoubleVal.finite s) =
      if hasDotOrExp s then s else s ++ ['.', '0'])
  ∧ (∀ s, hasDotOrExp (print_value (DoubleVal.finite s)) = true) := by
  refine ⟨rfl, rfl, rfl, fun s => rfl, fun s => ?_⟩
  by_cases h : hasDotOrExp s
  · simp [print_value, h]
  · simp only [print_value, h, if_false, Bool.not_eq_true] at *
    simp [hasDotOrExp, List.any_append]

/-- `wrap32` is the identity on values representable in a 32-bit `int`. -/
theorem wrap32_eq_self (x : Int) (h1 : -2147483648 ≤ x) (h2 : x ≤ 2147483647) :
    wrap32 x = x := by
  unfold wrap32
  omega

/-- `toSizeT` is plain `toNat` on nonnegative values below 2^64. -/
theorem toSizeT_eq_toNat (x : Int) (h1 : 0 ≤ x)
    (h2 : x < 18446744073709551616) :
    toSizeT x = x.toNat := by
  unfold toSizeT
  omega

/-- In the non-overflowing range, `size_A` is the exact packed size. -/
theorem size_A_exact (N : Int) (h1 : 0 ≤ N) (h2 : N ≤ 2147483646) :
    size_A N = N.toNat * (N.toNat + 1) / 2 := by
  unfold size_A sizeTMul
  rw [wrap32_eq_self (N + 1) (by omega) (by omega),
      toSizeT_eq_toNat N h1 (by omega),
      toSizeT_eq_toNat (N + 1) (by omega) (by omega)]
  have h3 : (N + 1).toNat = N.toNat + 1 := by omega
  have hN : N.toNat ≤ 2147483646 := by omega
  have hN1 : N.toNat + 1 ≤ 2147483647 := by omega
  have hb : N.toNat * (N.toNat + 1) < 18446744073709551616 :=
    lt_of_le_of_lt (Nat.mul_le_mul hN hN1) (by norm_num)
  rw [h3, Nat.mod_eq_of_lt hb]

/-- In the non-overflowing range, `abs_inc` is the absolute value. -/
theorem abs_inc_eq_natAbs (i : Int) (h1 : -2147483648 < i)
    (h2 : i ≤ 2147483647) :
    abs_inc i = i.natAbs := by
  unfold abs_inc
  by_cases h : 0 ≤ i
  · rw [if_pos h, toSizeT_eq_toNat i h (by omega)]
    omega
  · rw [if_neg h, wrap32_eq_self (-i) (by omega) (by omega),
        toSizeT_eq_toNat (-i) (by omega) (by omega)]
    omega

/-- In the non-overflowing range, `size_x` is the exact vector size. -/
theorem size_x_exact (N i : Int) (hN1 : 0 ≤ N) (hN2 : N ≤ 2147483647)
    (h1 : -2147483648 < i) (h2 : i ≤ 2147483647) :
    size_x N i = N.toNat * i.natAbs := by
  unfold size_x sizeTMul
  rw [toSizeT_eq_toNat N hN1 (by omega), abs_inc_eq_natAbs i h1 h2]
  have hNn : N.toNat ≤ 2147483647 := by omega
  have hin : i.natAbs ≤ 2147483647 := by omega
  exact Nat.mod_eq_of_lt
    (lt_of_le_of_lt (Nat.mul_le_mul hNn hin) (by norm_num))

/-- Claim C6 counterexample: at `N = 2147483647` (`INT_MAX`, accepted by the
argument check since `N >= 0`), the `int` addition `N + 1` in
`size_t(N) * (N + 1) / 2` overflows, and the allocated packed size is not
`N*(N+1)/2`. -/
theorem size_A_int_max_cex :
    Event.allocHost Buf.hA_1 (size_A 2147483647) ∈ testing_spr2 argBigN
  ∧ size_A 2147483647 ≠ 2147483647 * (2147483647 + 1) / 2 := by
  constructor
  · decide
  · decide

/-- Claim C6 (amended): for every `N` with `0 ≤ N ≤ 2^31 - 2` — so that the
`int` addition `N + 1` does not overflow — and nonzero increments,
`testing_spr2` allocates the packed buffer `A`, on host and device, with
exactly `N*(N+1)/2` elements, and `testing_spr2_bad_arg` does so at its fixed
`N = 100`, allocating `5050` elements. -/
theorem size_A_alloc_amended :
    (∀ arg : Arguments, 0 ≤ arg.N → arg.N ≤ 2147483646 →
      arg.incx ≠ 0 → arg.incy ≠ 0 →
      size_A arg.N = arg.N.toNat * (arg.N.toNat + 1) / 2
      ∧ Event.allocHost Buf.hA_1 (arg.N.toNat * (arg.N.toNat + 1) / 2)
          ∈ testing_spr2 arg
      ∧ Event.allocHost Buf.hA_2 (arg.N.toNat * (arg.N.toNat + 1) / 2)
          ∈ testing_spr2 arg
      ∧ Event.allocHost Buf.hA_gold (arg.N.toNat * (arg.N.toNat + 1) / 2)
          ∈ testing_spr2 arg
      ∧ Event.allocDevice Buf.dA_1 (arg.N.toNat * (arg.N.toNat + 1) / 2)
          ∈ testing_spr2 arg
      ∧ Event.allocDevice Buf.dA_2 (arg.N.toNat * (arg.N.toNat + 1) / 2)
          ∈ testing_spr2 arg)
  ∧ (∀ arg : Arguments,
      size_A 100 = 5050
      ∧ Event.allocDevice Buf.dA_1 5050 ∈ testing_spr2_bad_arg arg) := by
  constructor
  · intro arg h1 h2 hx hy
    have hs : size_A arg.N = arg.N.toNat * (arg.N.toNat + 1) / 2 :=
      size_A_exact arg.N h1 h2
    refine ⟨hs, ?_, ?_, ?_, ?_, ?_⟩ <;>
      rw [testing_spr2_valid_eq arg h1 hx hy, ← hs] <;>
      simp [allocSection]
  · intro arg
    constructor
    · decide
    · unfold testing_spr2_bad_arg
      decide

/-- Witness for the amended C6 at `N = 3` (and the fixed `N = 100` of
`testing_spr2_bad_arg`). -/
theorem size_A_alloc_amended_witness :
    (0 ≤ argSmall.N ∧ argSmall.N ≤ 2147483646
      ∧ argSmall.incx ≠ 0 ∧ argSmall.incy ≠ 0)
  ∧ (size_A argSmall.N = argSmall.N.toNat * (argSmall.N.toNat + 1) / 2
     ∧ Event.allocHost Buf.hA_1 (argSmall.N.toNat * (argSmall.N.toNat + 1) / 2)
         ∈ testing_spr2 argSmall
     ∧ Event.allocHost Buf.hA_2 (argSmall.N.toNat * (argSmall.N.toNat + 1) / 2)
         ∈ testing_spr2 argSmall
     ∧ Event.allocHost Buf.hA_gold (argSmall.N.toNat * (argSmall.N.toNat + 1) / 2)
         ∈ testing_spr2 argSmall
     ∧ Event.allocDevice Buf.dA_1 (argSmall.N.toNat * (argSmall.N.toNat + 1) / 2)
         ∈ testing_spr2 argSmall
     ∧ Event.allocDevice Buf.dA_2 (argSmall.N.toNat * (argSmall.N.toNat + 1) / 2)
         ∈ testing_spr2 argSmall)
  ∧ (size_A 100 = 5050
     ∧ Event.allocDevice Buf.dA_1 5050 ∈ testing_spr2_bad_arg argSmall) :=
  ⟨⟨by decide, by decide, by decide, by decide⟩,
   size_A_alloc_amended.1 argSmall (by decide) (by decide) (by decide)
     (by decide),
   size_A_alloc_amended.2 argSmall⟩

/-- Claim C10 counterexample: at `incx = -2147483648` (`INT_MIN`, nonzero and
representable as `rocblas_int`), the `int` negation `-incx` overflows, and
the allocated vector size is not `N * |incx|`. -/
theorem size_x_int_min_cex :
    Event.allocHost Buf.hx (size_x 1 (-2147483648)) ∈ testing_spr2 argIntMinInc
  ∧ size_x 1 (-2147483648) ≠ 1 * 2147483648 := by
  constructor
  · decide
  · decide

/-- Claim C10 (amended): for every nonzero increment strictly between
`INT_MIN` exclusive and `INT_MAX` inclusive — so that the `int` negation
`-incx` does not overflow — `testing_spr2` allocates the `x` (resp. `y`)
buffers, host and device, with exactly `N * |incx|` (resp. `N * |incy|`)
elements, a negative increment getting the same allocation as its positive
counterpart; `testing_spr2_bad_arg` does so at its fixed `N = 100`,
`incx = incy = 1`. -/
theorem size_x_alloc_amended :
    (∀ arg : Arguments, 0 ≤ arg.N → arg.N ≤ 2147483647 →
      -2147483648 < arg.incx → arg.incx ≤ 2147483647 → arg.incx ≠ 0 →
      -2147483648 < arg.incy → arg.incy ≤ 2147483647 → arg.incy ≠ 0 →
      size_x arg.N arg.incx = arg.N.toNat * arg.incx.natAbs
      ∧ size_x arg.N arg.incy = arg.N.toNat * arg.incy.natAbs
      ∧ size_x arg.N arg.incx = size_x arg.N (-arg.incx)
      ∧ Event.allocHost Buf.hx (arg.N.toNat * arg.incx.natAbs)
          ∈ testing_spr2 arg
      ∧ Event.allocDevice Buf.dx (arg.N.toNat * arg.incx.natAbs)
          ∈ testing_spr2 arg
      ∧ Event.allocHost Buf.hy (arg.N.toNat * arg.incy.natAbs)
          ∈ testing_spr2 arg
      ∧ Event.allocDevice Buf.dy (arg.N.toNat * arg.incy.natAbs)
          ∈ testing_spr2 arg)
  ∧ (∀ arg : Arguments,
      Event.allocDevice Buf.dx (100 * 1) ∈ testing_spr2_bad_arg arg
      ∧ Event.allocDevice Buf.dy (100 * 1) ∈ testing_spr2_bad_arg arg) := by
  constructor
  · intro arg hN1 hN2 hx1 hx2 hx0 hy1 hy2 hy0
    have hsx : size_x arg.N arg.incx = arg.N.toNat * arg.incx.natAbs :=
      size_x_exact arg.N arg.incx hN1 hN2 hx1 hx2
    have hsy : size_x arg.N arg.incy = arg.N.toNat * arg.incy.natAbs :=
      size_x_exact arg.N arg.incy hN1 hN2 hy1 hy2
    have hneg : size_x arg.N arg.incx = size_x arg.N (-arg.incx) := by
      rw [hsx, size_x_exact arg.N (-arg.incx) hN1 hN2 (by omega) (by omega),
          Int.natAbs_neg]
    refine ⟨hsx, hsy, hneg, ?_, ?_, ?_, ?_⟩
    · rw [testing_spr2_valid_eq arg hN1 hx0 hy0, ← hsx]
      simp [allocSection]
    · rw [testing_spr2_valid_eq arg hN1 hx0 hy0, ← hsx]
      simp [allocSection]
    · rw [testing_spr2_valid_eq arg hN1 hx0 hy0, ← hsy]
      simp [allocSection]
    · rw [testing_spr2_valid_eq arg hN1 hx0 hy0, ← hsy]
      simp [allocSection]
  · intro arg
    constructor
    · unfold testing_spr2_bad_arg
      decide
    · unfold testing_spr2_bad_arg
      decide

/-- Witness for the amended C10 at `N = 3`, `incx = -2`, `incy = 1`. -/
theorem size_x_alloc_amended_witness :
    (0 ≤ argSmall.N ∧ argSmall.N ≤ 2147483647
      ∧ -2147483648 < argSmall.incx ∧ argSmall.incx ≤ 2147483647
      ∧ argSmall.incx ≠ 0
      ∧ -2147483648 < argSmall.incy ∧ argSmall.incy ≤ 2147483647
      ∧ argSmall.incy ≠ 0)
  ∧ (size_x argSmall.N argSmall.incx = argSmall.N.toNat * argSmall.incx.natAbs
     ∧ size_x argSmall.N argSmall.incy = argSmall.N.toNat * argSmall.incy.natAbs
     ∧ size_x argSmall.N argSmall.incx = size_x argSmall.N (-argSmall.incx)
     ∧ Event.allocHost Buf.hx (argSmall.N.toNat * argSmall.incx.natAbs)
         ∈ testing_spr2 argSmall
     ∧ Event.allocDevice Buf.dx (argSmall.N.toNat * argSmall.incx.natAbs)
         ∈ testing_spr2 argSmall
     ∧ Event.allocHost Buf.hy (argSmall.N.toNat * argSmall.incy.natAbs)
         ∈ testing_spr2 argSmall
     ∧ Event.allocDevice Buf.dy (argSmall.N.toNat * argSmall.incy.natAbs)
         ∈ testing_spr2 argSmall)
  ∧ (Event.allocDevice Buf.dx (100 * 1) ∈ testing_spr2_bad_arg argSmall
     ∧ Event.allocDevice Buf.dy (100 * 1) ∈ testing_spr2_bad_arg argSmall) :=
  ⟨⟨by decide, by decide, by decide, by decide, by decide, by decide,
    by decide, by decide⟩,
   size_x_alloc_amended.1 argSmall (by decide) (by decide) (by decide)
     (by decide) (by decide) (by decide) (by decide) (by decide),
   size_x_alloc_amended.2 argSmall⟩

/-- A timing loop performs exactly `n` events. -/
theorem spr2Loop_length (a : Data) (n : Nat) : (spr2Loop a n).1.length = n := by
  induction n generalizing a with
  | zero => rfl
  | succ k ih => simp [spr2Loop, ih]

/-- Every event of a timing loop is an unchecked host-pointer-mode vendor
invocation on `dx`, `dy` and the host alpha. -/
theorem spr2Loop_mem (a : Data) (n : Nat) :
    ∀ e ∈ (spr2Loop a n).1,
      ∃ a', e = Event.spr2 PtrMode.host false Data.alphaV a' Data.initX
        Data.initY := by
  induction n generalizing a with
  | zero =>
    intro e he
    simp [spr2Loop] at he
  | succ k ih =>
    intro e he
    simp only [spr2Loop, List.mem_cons] at he
    rcases he with rfl | he
    · exact ⟨a, rfl⟩
    · exact ih _ e he

/-- A timing loop performs no timer read. -/
theorem spr2Loop_no_timerRead (a : Data) (n : Nat) :
    Event.timerRead ∉ (spr2Loop a n).1 := by
  intro h
  rcases spr2Loop_mem a n Event.timerRead h with ⟨a', ha⟩
  cases ha

/-- The correctness branch performs no stream-synchronised timer read. -/
theorem checkSection_no_timerRead (u n : Bool) :
    Event.timerRead ∉ checkSection u n := by
  cases u <;> cases n <;> decide

/-- Claim C1: with valid sizes and `unit_check` or `norm_check` set,
`testing_spr2` runs the vendor kernel in host-pointer mode and in
device-pointer mode, runs the CPU reference `cblas_spr2`, transfers both GPU
results back to host memory, and performs the enabled comparisons of each GPU
result against the CPU reference result; at least one comparison pair is
performed. -/
theorem testing_spr2_runs_and_compares (arg : Arguments)
    (hN : 0 ≤ arg.N) (hx : arg.incx ≠ 0) (hy : arg.incy ≠ 0)
    (hc : arg.unit_check = true ∨ arg.norm_check = true) :
    ∃ pre post,
      testing_spr2 arg = pre ++
        ([Event.setPtrMode PtrMode.host,
          Event.spr2 PtrMode.host true Data.alphaV Data.initA Data.initX
            Data.initY,
          Event.setPtrMode PtrMode.device,
          Event.spr2 PtrMode.device true Data.alphaV Data.initA Data.initX
            Data.initY,
          Event.cpuTimerRead,
          Event.cblasSpr2 Data.alphaV Data.initA Data.initX Data.initY,
          Event.cpuTimerRead,
          Event.transferToHost Buf.hA_1 Buf.dA_1 gpuOut,
          Event.transferToHost Buf.hA_2 Buf.dA_2 gpuOut]
         ++ (if arg.unit_check then
              [Event.unitCheckEv cpuOut gpuOut, Event.unitCheckEv cpuOut gpuOut]
            else [])
         ++ (if arg.norm_check then
              [Event.normCheckEv cpuOut gpuOut, Event.normCheckEv cpuOut gpuOut]
            else []))
        ++ post
      ∧ ((if arg.unit_check then
            [Event.unitCheckEv cpuOut gpuOut, Event.unitCheckEv cpuOut gpuOut]
          else [])
         ++ (if arg.norm_check then
              [Event.normCheckEv cpuOut gpuOut, Event.normCheckEv cpuOut gpuOut]
            else [])) ≠ [] := by
  have hb : (arg.unit_check || arg.norm_check) = true := by
    rcases hc with h | h <;> simp [h]
  refine ⟨Event.createHandle ::
      (allocSection arg ++ initSection ++ hostCopySection ++ transferSection),
    timingSection arg (dA1AfterCheck arg.unit_check arg.norm_check)
      ++ [Event.destroyHandle], ?_, ?_⟩
  · rw [testing_spr2_valid_eq arg hN hx hy]
    unfold checkSection
    rw [if_pos hb]
    simp [List.append_assoc]
  · rcases hc with h | h
    · simp [h]
    · cases hu : arg.unit_check <;> simp [h, hu]

/-- Witness for C1 at arguments with only the unit check enabled. -/
theorem testing_spr2_runs_and_compares_witness :
    (0 ≤ argUnit.N ∧ argUnit.incx ≠ 0 ∧ argUnit.incy ≠ 0
      ∧ (argUnit.unit_check = true ∨ argUnit.norm_check = true))
  ∧ (∃ pre post,
      testing_spr2 argUnit = pre ++
        ([Event.setPtrMode PtrMode.host,
          Event.spr2 PtrMode.host true Data.alphaV Data.initA Data.initX
            Data.initY,
          Event.setPtrMode PtrMode.device,
          Event.spr2 PtrMode.device true Data.alphaV Data.initA Data.initX
            Data.initY,
          Event.cpuTimerRead,
          Event.cblasSpr2 Data.alphaV Data.initA Data.initX Data.initY,
          Event.cpuTimerRead,
          Event.transferToHost Buf.hA_1 Buf.dA_1 gpuOut,
          Event.transferToHost Buf.hA_2 Buf.dA_2 gpuOut]
         ++ (if argUnit.unit_check then
              [Event.unitCheckEv cpuOut gpuOut, Event.unitCheckEv cpuOut gpuOut]
            else [])
         ++ (if argUnit.norm_check then
              [Event.normCheckEv cpuOut gpuOut, Event.normCheckEv cpuOut gpuOut]
            else []))
        ++ post
      ∧ ((if argUnit.unit_check then
            [Event.unitCheckEv cpuOut gpuOut, Event.unitCheckEv cpuOut gpuOut]
          else [])
         ++ (if argUnit.norm_check then
              [Event.normCheckEv cpuOut gpuOut, Event.normCheckEv cpuOut gpuOut]
            else [])) ≠ []) :=
  ⟨⟨by decide, by decide, by decide, Or.inl rfl⟩,
   testing_spr2_runs_and_compares argUnit (by decide) (by decide) (by decide)
     (Or.inl rfl)⟩

/-- Claim C4: in a correctness run, the host copies and transfers give
`hA_gold`, `dA_1` and `dA_2` the same content as `hA_1`, give `dx`, `dy` the
contents of `hx`, `hy`, and give `d_alpha` the host alpha; the two GPU
invocations and the CPU reference invocation then all read identical inputs:
the same alpha, the same initial matrix, the same `x` and the same `y`
data. -/
theorem testing_spr2_identical_inputs (arg : Arguments)
    (hN : 0 ≤ arg.N) (hx : arg.incx ≠ 0) (hy : arg.incy ≠ 0)
    (hc : arg.unit_check = true ∨ arg.norm_check = true) :
    ∃ pre post,
      testing_spr2 arg = pre ++
        ([Event.hostCopy Buf.hA_gold Buf.hA_1 Data.initA,
          Event.hostCopy Buf.hA_2 Buf.hA_1 Data.initA,
          Event.transferToDevice Buf.dA_1 Buf.hA_1 Data.initA,
          Event.transferToDevice Buf.dA_2 Buf.hA_1 Data.initA,
          Event.transferToDevice Buf.dx Buf.hx Data.initX,
          Event.transferToDevice Buf.dy Buf.hy Data.initY,
          Event.transferToDevice Buf.d_alpha Buf.halpha Data.alphaV,
          Event.setPtrMode PtrMode.host,
          Event.spr2 PtrMode.host true Data.alphaV Data.initA Data.initX
            Data.initY,
          Event.setPtrMode PtrMode.device,
          Event.spr2 PtrMode.device true Data.alphaV Data.initA Data.initX
            Data.initY,
          Event.cpuTimerRead,
          Event.cblasSpr2 Data.alphaV Data.initA Data.initX Data.initY])
        ++ post
      ∧ Event.initBuf Buf.halpha Data.alphaV ∈ testing_spr2 arg := by
  have hb : (arg.unit_check || arg.norm_check) = true := by
    rcases hc with h | h <;> simp [h]
  refine ⟨Event.createHandle :: (allocSection arg ++ initSection),
    [Event.cpuTimerRead,
     Event.transferToHost Buf.hA_1 Buf.dA_1 gpuOut,
     Event.transferToHost Buf.hA_2 Buf.dA_2 gpuOut]
    ++ (if arg.unit_check then
          [Event.unitCheckEv cpuOut gpuOut, Event.unitCheckEv cpuOut gpuOut]
        else [])
    ++ (if arg.norm_check then
          [Event.normCheckEv cpuOut gpuOut, Event.normCheckEv cpuOut gpuOut]
        else [])
    ++ timingSection arg (dA1AfterCheck arg.unit_check arg.norm_check)
    ++ [Event.destroyHandle], ?_, ?_⟩
  · rw [testing_spr2_valid_eq arg hN hx hy]
    unfold checkSection
    rw [if_pos hb]
    simp [hostCopySection, transferSection, List.append_assoc]
  · rw [testing_spr2_valid_eq arg hN hx hy]
    simp [allocSection]

/-- Witness for C4 at arguments with only the norm check enabled. -/
theorem testing_spr2_identical_inputs_witness :
    (0 ≤ argNorm.N ∧ argNorm.incx ≠ 0 ∧ argNorm.incy ≠ 0
      ∧ (argNorm.unit_check = true ∨ argNorm.norm_check = true))
  ∧ (∃ pre post,
      testing_spr2 argNorm = pre ++
        ([Event.hostCopy Buf.hA_gold Buf.hA_1 Data.initA,
          Event.hostCopy Buf.hA_2 Buf.hA_1 Data.initA,
          Event.transferToDevice Buf.dA_1 Buf.hA_1 Data.initA,
          Event.transferToDevice Buf.dA_2 Buf.hA_1 Data.initA,
          Event.transferToDevice Buf.dx Buf.hx Data.initX,
          Event.transferToDevice Buf.dy Buf.hy Data.initY,
          Event.transferToDevice Buf.d_alpha Buf.halpha Data.alphaV,
          Event.setPtrMode PtrMode.host,
          Event.spr2 PtrMode.host true Data.alphaV Data.initA Data.initX
            Data.initY,
          Event.setPtrMode PtrMode.device,
          Event.spr2 PtrMode.device true Data.alphaV Data.initA Data.initX
            Data.initY,
          Event.cpuTimerRead,
          Event.cblasSpr2 Data.alphaV Data.initA Data.initX Data.initY])
        ++ post
      ∧ Event.initBuf Buf.halpha Data.alphaV ∈ testing_spr2 argNorm) :=
  ⟨⟨by decide, by decide, by decide, Or.inr rfl⟩,
   testing_spr2_identical_inputs argNorm (by decide) (by decide) (by decide)
     (Or.inr rfl)⟩

/-- Claim C7: with valid sizes and `arg.timing` set, the run decomposes as a
prefix containing no stream-synchronised timer read and ending with
`arg.cold_iters` warm-up vendor invocations, a timer read, exactly
`arg.iters` hot vendor invocations and nothing else, a second timer read, and
the `log_args` call; the stream is fetched just before the first read. -/
theorem testing_spr2_timing_hot_calls (arg : Arguments)
    (hN : 0 ≤ arg.N) (hx : arg.incx ≠ 0) (hy : arg.incy ≠ 0)
    (ht : arg.timing = true) :
    ∃ pre cold hot,
      testing_spr2 arg =
        pre ++ cold ++ [Event.getStream, Event.timerRead] ++ hot
          ++ [Event.timerRead,
              Event.logArgs true (arg.unit_check || arg.norm_check)
                arg.norm_check arg.norm_check,
              Event.destroyHandle]
      ∧ cold.length = arg.cold_iters
      ∧ (∀ e ∈ cold, ∃ a,
          e = Event.spr2 PtrMode.host false Data.alphaV a Data.initX
            Data.initY)
      ∧ hot.length = arg.iters
      ∧ (∀ e ∈ hot, ∃ a,
          e = Event.spr2 PtrMode.host false Data.alphaV a Data.initX
            Data.initY)
      ∧ Event.timerRead ∉ pre
      ∧ Event.timerRead ∉ cold
      ∧ Event.timerRead ∉ hot := by
  refine ⟨Event.createHandle ::
      (allocSection arg ++ initSection ++ hostCopySection ++ transferSection
        ++ checkSection arg.unit_check arg.norm_check
        ++ [Event.setPtrMode PtrMode.host]),
    (spr2Loop (dA1AfterCheck arg.unit_check arg.norm_check) arg.cold_iters).1,
    (spr2Loop
      (spr2Loop (dA1AfterCheck arg.unit_check arg.norm_check)
        arg.cold_iters).2 arg.iters).1,
    ?_, spr2Loop_length _ _, spr2Loop_mem _ _, spr2Loop_length _ _,
    spr2Loop_mem _ _, ?_, spr2Loop_no_timerRead _ _,
    spr2Loop_no_timerRead _ _⟩
  · rw [testing_spr2_valid_eq arg hN hx hy]
    unfold timingSection
    rw [if_pos ht]
    simp [List.append_assoc]
  · simp [allocSection, initSection, hostCopySection, transferSection,
      checkSection_no_timerRead arg.unit_check arg.norm_check]

/-- Witness for C7 at timing arguments with one cold and two hot calls. -/
theorem testing_spr2_timing_hot_calls_witness :
    (0 ≤ argTiming.N ∧ argTiming.incx ≠ 0 ∧ argTiming.incy ≠ 0
      ∧ argTiming.timing = true)
  ∧ (∃ pre cold hot,
      testing_spr2 argTiming =
        pre ++ cold ++ [Event.getStream, Event.timerRead] ++ hot
          ++ [Event.timerRead,
              Event.logArgs true (argTiming.unit_check || argTiming.norm_check)
                argTiming.norm_check argTiming.norm_check,
              Event.destroyHandle]
      ∧ cold.length = argTiming.cold_iters
      ∧ (∀ e ∈ cold, ∃ a,
          e = Event.spr2 PtrMode.host false Data.alphaV a Data.initX
            Data.initY)
      ∧ hot.length = argTiming.iters
      ∧ (∀ e ∈ hot, ∃ a,
          e = Event.spr2 PtrMode.host false Data.alphaV a Data.initX
            Data.initY)
      ∧ Event.timerRead ∉ pre
      ∧ Event.timerRead ∉ cold
      ∧ Event.timerRead ∉ hot) :=
  ⟨⟨by decide, by decide, by decide, rfl⟩,
   testing_spr2_timing_hot_calls argTiming (by decide) (by decide)
     (by decide) rfl⟩

end RocblasSpr2Test
